import Mathlib

/-!
Verification development for the FarmKonnect Python SDK
(src/sdk/python/farmkonnect/__init__.py).

The SDK's core is a shared HTTP request engine: header construction with
bearer-token injection, retry with exponential backoff on transport-level
failures, and normalization of every failure into a single APIError shape.
It is implemented twice, once over a blocking transport and once over a
non-blocking transport.

The embedding below translates that engine into pure Lean functions.  The
transport itself (the external requests/aiohttp libraries) is not part of
this repository; a single transport attempt is therefore represented by a
TransportOutcome value, and a whole run is driven by a trace assigning an
outcome to each attempt index.  JSON parsing is performed by those external
libraries as well, so a completed response carries the parse result of its
body as an Option (none = absent or unparseable), following the transport
contract of the specification.  Delays are modelled as exact rationals
(Python multiplies a float by an integer power of two, which is exact).
-/

/-- Python runtime values that appear as query-parameter entries built by the
resource facades (ints, floats, strings, bools). -/
inductive PyVal where
  | int (i : Int)
  | float (q : ℚ)
  | str (s : String)
  | bool (b : Bool)
deriving DecidableEq, Repr

/-- A Python dict with string keys, as an insertion-ordered association list
(Python dicts preserve insertion order and never hold duplicate keys). -/
abbrev PyDict (β : Type) := List (String × β)

/-- Headers and parsed JSON objects inspected by the engine. -/
abbrev StrDict := PyDict String

/-- Query-parameter dictionaries built by the facades. -/
abbrev Params := PyDict PyVal

/-- Python dict assignment `d[k] = v`: update in place when the key is
present, append at the end otherwise. -/
def dictSet {β : Type} (d : PyDict β) (k : String) (v : β) : PyDict β :=
  if d.any (fun p => p.1 == k) then
    d.map (fun p => if p.1 == k then (k, v) else p)
  else
    d ++ [(k, v)]

/-- Python dict construction with double-splat override, as in
`d = dict-of a with items of b written on top` : every entry of `b` is
assigned into `a` in order. -/
def dictMerge {β : Type} (a b : PyDict β) : PyDict β :=
  b.foldl (fun d p => dictSet d p.1 p.2) a

/-- Client configuration (BaseClient.__init__), with the documented
defaults.  retry_attempts is a Python int, so it may be non-positive. -/
structure ClientConfig where
  base_url : String := "http://localhost:3001"
  token : Option String := none
  timeout : Nat := 30
  retry_attempts : Int := 3
  retry_delay : ℚ := 1

/-- BaseClient.set_token: store the given token on the client. -/
def set_token (c : ClientConfig) (t : String) : ClientConfig :=
  { c with token := some t }

/-- BaseClient.clear_token: reset the token to None. -/
def clear_token (c : ClientConfig) : ClientConfig :=
  { c with token := none }

/-- BaseClient._get_headers: start from the Content-Type default, write the
caller-supplied headers on top, then, when the token is truthy (Python
`if self.token` is false for both None and the empty string), assign the
Authorization header last. -/
def _get_headers (token : Option String) (extra_headers : Option StrDict) : StrDict :=
  let headers := dictMerge [("Content-Type", "application/json")] (extra_headers.getD [])
  match token with
  | some t => if t = "" then headers else dictSet headers "Authorization" ("Bearer " ++ t)
  | none => headers

/-- A completed HTTP exchange as the engine observes it through the
transport: numeric status, raw body text, content type, and the parse
result of the body.  Modelled from the spec: JSON parsing happens inside
the external transport libraries, which per the transport contract hand
the engine a parsed structured body, with `parsed = none` standing for an
absent or unparseable body. -/
structure HttpResponse where
  status : Nat
  text : String
  content_type : String
  parsed : Option StrDict
deriving DecidableEq, Repr

/-- Modelled from the spec: `response.ok` is defined by the external
transport libraries, and the transport contract of the specification
requires success to be reported exactly for 2xx-class statuses. -/
def HttpResponse.ok (r : HttpResponse) : Bool :=
  decide (200 ≤ r.status ∧ r.status < 300)

/-- The outcome of one transport attempt: either the exchange did not
complete (the caught requests.RequestException / aiohttp.ClientError,
carrying its string description) or it completed with a response. -/
inductive TransportOutcome where
  | failure (desc : String)
  | completed (resp : HttpResponse)
deriving DecidableEq, Repr

/-- The APIError class: message, numeric status code, details dict. -/
structure APIError where
  message : String
  status_code : Nat
  details : StrDict
deriving DecidableEq, Repr

/-- APIError.__init__: `details or` an empty dict — a None (and an empty)
details argument is stored as the empty dict. -/
def APIError.ofParts (message : String) (status_code : Nat) (details : Option StrDict) : APIError :=
  ⟨message, status_code, details.getD []⟩

/-- What a call to request() does: return a parsed body, raise an APIError,
or fall off the end of the for-loop and return None (possible only when the
attempt budget is non-positive). -/
inductive RequestResult where
  | success (body : StrDict)
  | error (e : APIError)
  | noneReturned
deriving DecidableEq, Repr

/-- Observable run of one request() call: its outcome, the number of
transport attempts made, and the backoff delays slept, in order. -/
structure RunTrace where
  result : RequestResult
  attempts : Nat
  delays : List ℚ
deriving DecidableEq, Repr

/-- Error-body extraction of the blocking engine (FarmKonnectClient.request):
`response.json() if response.text else` the empty dict — gated on the body
text being non-empty. -/
def errorDataSync (r : HttpResponse) : StrDict :=
  if r.text = "" then [] else r.parsed.getD []

/-- Error-body extraction of the non-blocking engine
(AsyncFarmKonnectClient.request): `await response.json() if
response.content_type == 'application/json' else` the empty dict — gated on
the declared content type. -/
def errorDataAsync (r : HttpResponse) : StrDict :=
  if r.content_type = "application/json" then r.parsed.getD [] else []

/-- The retry loop shared by both request() implementations, parameterized
by the error-body extraction.  `attempt` is the current 0-based loop index
and `fuel` the number of loop iterations left (initially
`range(retry_attempts)`).  On a completed exchange: return the parsed body
when ok, otherwise raise an APIError built from the extracted error data
and the response status.  On a transport failure: when this is not the
last iteration, sleep `retry_delay * 2 ^ attempt` and continue; on the
last iteration raise an APIError with status 0 wrapping the failure
description. -/
def requestLoop (errData : HttpResponse → StrDict) (retry_delay : ℚ)
    (trace : Nat → TransportOutcome) (attempt fuel : Nat) : RunTrace :=
  match fuel with
  | 0 => ⟨.noneReturned, 0, []⟩
  | fuel' + 1 =>
    match trace attempt with
    | .completed resp =>
      if resp.ok then
        ⟨.success (resp.parsed.getD []), 1, []⟩
      else
        ⟨.error (APIError.ofParts (((errData resp).lookup "message").getD "Request failed")
            resp.status (some (errData resp))), 1, []⟩
    | .failure desc =>
      if fuel' = 0 then
        ⟨.error (APIError.ofParts desc 0 none), 1, []⟩
      else
        let rest := requestLoop errData retry_delay trace (attempt + 1) fuel'
        ⟨rest.result, rest.attempts + 1, retry_delay * 2 ^ attempt :: rest.delays⟩

/-- FarmKonnectClient.request, driven by a trace of transport outcomes:
`for attempt in range(self.retry_attempts)` over the loop body above, with
the blocking engine's error-body extraction. -/
def FarmKonnectClient.request (cfg : ClientConfig) (trace : Nat → TransportOutcome) : RunTrace :=
  requestLoop errorDataSync cfg.retry_delay trace 0 cfg.retry_attempts.toNat

/-- AsyncFarmKonnectClient.request, identical loop with the non-blocking
engine's error-body extraction. -/
def AsyncFarmKonnectClient.request (cfg : ClientConfig) (trace : Nat → TransportOutcome) : RunTrace :=
  requestLoop errorDataAsync cfg.retry_delay trace 0 cfg.retry_attempts.toNat

/-- The backoff delays produced by `count` consecutive transport failures
starting at loop index `attempt`. -/
def expectedDelays (d : ℚ) (attempt : Nat) (count : Nat) : List ℚ :=
  match count with
  | 0 => []
  | c + 1 => d * 2 ^ attempt :: expectedDelays d (attempt + 1) c

/-- CropsAPI.list: params start with farmId; `if status:` (Python
truthiness — None and the empty string are both skipped) assigns the
status filter. -/
def CropsAPI.list (farm_id : Int) (status : Option String) : Params :=
  let params : Params := [("farmId", .int farm_id)]
  match status with
  | some s => if s = "" then params else dictSet params "status" (.str s)
  | none => params

/-- MarketplaceAPI.list_products: params start empty; each optional filter
is assigned under an `if value:` truthiness test (None, empty strings and
zero are all skipped). -/
def MarketplaceAPI.list_products (search category : Option String)
    (min_price max_price : Option ℚ) : Params :=
  let params : Params := []
  let params := match search with
    | some s => if s = "" then params else dictSet params "search" (.str s)
    | none => params
  let params := match category with
    | some s => if s = "" then params else dictSet params "category" (.str s)
    | none => params
  let params := match min_price with
    | some q => if q = 0 then params else dictSet params "minPrice" (.float q)
    | none => params
  let params := match max_price with
    | some q => if q = 0 then params else dictSet params "maxPrice" (.float q)
    | none => params
  params

/-! ## Dictionary lemmas -/

theorem lookup_map_update {β : Type} (k : String) (v : β) :
    ∀ d : PyDict β, d.any (fun p => p.1 == k) = true →
      (d.map (fun p => if p.1 == k then (k, v) else p)).lookup k = some v := by
  intro d
  induction d with
  | nil => intro h; simp at h
  | cons p rest ih =>
    intro h
    obtain ⟨a, b⟩ := p
    by_cases hk : a = k
    · subst hk
      simp only [List.map_cons]
      rw [if_pos (by simp)]
      simp [List.lookup]
    · have hk1 : (a == k) = false := beq_false_of_ne hk
      have hk2 : (k == a) = false := beq_false_of_ne (Ne.symm hk)
      simp only [List.any_cons, hk1, Bool.false_or] at h
      simp only [List.map_cons]
      rw [if_neg (by simp [hk1])]
      simp only [List.lookup, hk2]
      simpa using ih h

theorem lookup_append_single {β : Type} (k : String) (v : β) :
    ∀ d : PyDict β, d.any (fun p => p.1 == k) = false →
      (d ++ [(k, v)]).lookup k = some v := by
  intro d
  induction d with
  | nil => simp [List.lookup]
  | cons p rest ih =>
    intro h
    obtain ⟨a, b⟩ := p
    simp only [List.any_cons, Bool.or_eq_false_iff] at h
    have hk2 : (k == a) = false := by
      cases hb : a == k with
      | true => rw [hb] at h; exact absurd h.1 (by simp)
      | false => exact beq_false_of_ne (Ne.symm (by simpa using hb))
    simp [List.lookup, hk2, ih h.2]

/-- After a Python dict assignment, looking the key up yields the assigned
value. -/
theorem lookup_dictSet {β : Type} (d : PyDict β) (k : String) (v : β) :
    (dictSet d k v).lookup k = some v := by
  unfold dictSet
  split
  next h => exact lookup_map_update k v d h
  next h =>
    refine lookup_append_single k v d ?_
    revert h
    cases d.any (fun p => p.1 == k) <;> simp

theorem lookup_eq_none_of_keys_ne {β : Type} (k : String) :
    ∀ d : PyDict β, (∀ p ∈ d, p.1 ≠ k) → d.lookup k = none := by
  intro d
  induction d with
  | nil => intro h; rfl
  | cons p rest ih =>
    intro h
    obtain ⟨a, b⟩ := p
    have hk2 : (k == a) = false :=
      beq_false_of_ne (Ne.symm (h (a, b) (List.mem_cons_self _ _)))
    simp only [List.lookup, hk2]
    exact ih (fun q hq => h q (List.mem_cons_of_mem _ hq))

theorem dictSet_keys_ne {β : Type} {k k' : String} (v : β) (hk : k' ≠ k) :
    ∀ d : PyDict β, (∀ p ∈ d, p.1 ≠ k) → ∀ p ∈ dictSet d k' v, p.1 ≠ k := by
  intro d hd p hp
  unfold dictSet at hp
  split at hp
  · obtain ⟨q, hq, hpq⟩ := List.mem_map.mp hp
    by_cases h1 : (q.1 == k') = true
    · rw [if_pos h1] at hpq
      subst hpq
      exact hk
    · rw [if_neg h1] at hpq
      subst hpq
      exact hd q hq
  · rcases List.mem_append.mp hp with h | h
    · exact hd p h
    · have : p = (k', v) := by simpa using h
      subst this
      exact hk

theorem dictMerge_keys_ne {β : Type} {k : String} :
    ∀ (b a : PyDict β), (∀ p ∈ a, p.1 ≠ k) → (∀ p ∈ b, p.1 ≠ k) →
      ∀ p ∈ dictMerge a b, p.1 ≠ k := by
  intro b
  induction b with
  | nil => intro a ha _ p hp; exact ha p hp
  | cons q rest ih =>
    intro a ha hb p hp
    have hstep : dictMerge a (q :: rest) = dictMerge (dictSet a q.1 q.2) rest := rfl
    rw [hstep] at hp
    exact ih (dictSet a q.1 q.2)
      (dictSet_keys_ne q.2 (hb q (List.mem_cons_self _ _)) a ha)
      (fun r hr => hb r (List.mem_cons_of_mem _ hr)) p hp

/-! ## Retry-loop lemmas -/

theorem expectedDelays_get (d : ℚ) :
    ∀ (c attempt i : Nat), i < c →
      (expectedDelays d attempt c).get? i = some (d * 2 ^ (attempt + i)) := by
  intro c
  induction c with
  | zero => intro _ i h; exact absurd h (Nat.not_lt_zero i)
  | succ m ih =>
    intro attempt i h
    cases i with
    | zero => simp [expectedDelays]
    | succ j =>
      have e : attempt + (j + 1) = attempt + 1 + j := by omega
      rw [e]
      simpa [expectedDelays] using ih (attempt + 1) j (by omega)

/-- One unfolding step of the loop: a transport failure with at least one
iteration left sleeps the backoff and continues at the next attempt. -/
theorem requestLoop_failure_cons (errData : HttpResponse → StrDict) (d : ℚ)
    (trace : Nat → TransportOutcome) {attempt fuel' : Nat} {desc : String}
    (htr : trace attempt = .failure desc) (hf : fuel' ≠ 0) :
    requestLoop errData d trace attempt (fuel' + 1) =
      ⟨(requestLoop errData d trace (attempt + 1) fuel').result,
        (requestLoop errData d trace (attempt + 1) fuel').attempts + 1,
        d * 2 ^ attempt :: (requestLoop errData d trace (attempt + 1) fuel').delays⟩ := by
  simp [requestLoop, htr, hf]

theorem requestLoop_allFail (errData : HttpResponse → StrDict) (d : ℚ)
    (trace : Nat → TransportOutcome) (descs : Nat → String) :
    ∀ (c attempt : Nat), (∀ j, j ≤ c → trace (attempt + j) = .failure (descs (attempt + j))) →
      requestLoop errData d trace attempt (c + 1) =
        ⟨.error (APIError.ofParts (descs (attempt + c)) 0 none), c + 1,
          expectedDelays d attempt c⟩ := by
  intro c
  induction c with
  | zero =>
    intro attempt h
    have h0 : trace attempt = .failure (descs attempt) := by simpa using h 0 (Nat.le_refl 0)
    simp [requestLoop, h0, expectedDelays]
  | succ m ih =>
    intro attempt h
    have h0 : trace attempt = .failure (descs attempt) := by simpa using h 0 (Nat.zero_le _)
    have hrec := ih (attempt + 1) (fun j hj => by
      have e : attempt + 1 + j = attempt + (j + 1) := by omega
      rw [e]
      exact h (j + 1) (Nat.succ_le_succ hj))
    have e2 : attempt + 1 + m = attempt + (m + 1) := by omega
    rw [e2] at hrec
    rw [requestLoop_failure_cons errData d trace h0 (Nat.succ_ne_zero m), hrec]
    simp [expectedDelays]

theorem requestLoop_failThenOk (errData : HttpResponse → StrDict) (d : ℚ)
    (trace : Nat → TransportOutcome) (descs : Nat → String) (resp : HttpResponse)
    (hok : resp.ok = true) :
    ∀ (c fuel attempt : Nat), c < fuel →
      (∀ j, j < c → trace (attempt + j) = .failure (descs (attempt + j))) →
      trace (attempt + c) = .completed resp →
      requestLoop errData d trace attempt fuel =
        ⟨.success (resp.parsed.getD []), c + 1, expectedDelays d attempt c⟩ := by
  intro c
  induction c with
  | zero =>
    intro fuel attempt hf _ hc
    obtain ⟨f', rfl⟩ : ∃ f', fuel = f' + 1 := ⟨fuel - 1, by omega⟩
    have hc0 : trace attempt = .completed resp := by simpa using hc
    simp [requestLoop, hc0, hok, expectedDelays]
  | succ m ih =>
    intro fuel attempt hf hfail hc
    obtain ⟨f', rfl⟩ : ∃ f', fuel = f' + 1 := ⟨fuel - 1, by omega⟩
    have h0 : trace attempt = .failure (descs attempt) := by
      simpa using hfail 0 (Nat.succ_pos m)
    have hf' : f' ≠ 0 := by omega
    have hrec := ih f' (attempt + 1) (by omega)
      (fun j hj => by
        have e : attempt + 1 + j = attempt + (j + 1) := by omega
        rw [e]
        exact hfail (j + 1) (Nat.succ_lt_succ hj))
      (by
        have e : attempt + 1 + m = attempt + (m + 1) := by omega
        rw [e]
        exact hc)
    simp [requestLoop, h0, hf', hrec, expectedDelays]

theorem requestLoop_congr (e₁ e₂ : HttpResponse → StrDict) (d : ℚ)
    (trace : Nat → TransportOutcome)
    (h : ∀ a resp, trace a = .completed resp → e₁ resp = e₂ resp) :
    ∀ fuel attempt, requestLoop e₁ d trace attempt fuel = requestLoop e₂ d trace attempt fuel := by
  intro fuel
  induction fuel with
  | zero => intro attempt; rfl
  | succ n ih =>
    intro attempt
    cases htr : trace attempt with
    | completed resp =>
      have he := h attempt resp htr
      simp [requestLoop, htr, he]
    | failure desc =>
      by_cases hn : n = 0
      · simp [requestLoop, htr, hn]
      · simp [requestLoop, htr, hn, ih]

/-- One unfolding step of the loop: a completed 2xx exchange returns the
parsed body at once. -/
theorem requestLoop_completed_ok (errData : HttpResponse → StrDict) (d : ℚ)
    (trace : Nat → TransportOutcome) {attempt : Nat} {resp : HttpResponse}
    (htr : trace attempt = .completed resp) (hok : resp.ok = true) (fuel' : Nat) :
    requestLoop errData d trace attempt (fuel' + 1) =
      ⟨.success (resp.parsed.getD []), 1, []⟩ := by
  simp [requestLoop, htr, hok]

/-- One unfolding step of the loop: a completed non-2xx exchange raises at
once, with the error built from the extracted body and the status. -/
theorem requestLoop_completed_err (errData : HttpResponse → StrDict) (d : ℚ)
    (trace : Nat → TransportOutcome) {attempt : Nat} {resp : HttpResponse}
    (htr : trace attempt = .completed resp) (hok : resp.ok = false) (fuel' : Nat) :
    requestLoop errData d trace attempt (fuel' + 1) =
      ⟨.error (APIError.ofParts (((errData resp).lookup "message").getD "Request failed")
        resp.status (some (errData resp))), 1, []⟩ := by
  simp [requestLoop, htr, hok]

/-- Attempt count and delay list of a whole run in which the transport fails
at every attempt before index f and completes successfully there. -/
theorem requestLoop_profile (errData : HttpResponse → StrDict) (d : ℚ)
    (trace : Nat → TransportOutcome) (descs : Nat → String) (resp : HttpResponse)
    (f n : Nat) (hok : resp.ok = true)
    (hfail : ∀ j, j < f → trace j = .failure (descs j))
    (hsucc : trace f = .completed resp) :
    (requestLoop errData d trace 0 n).attempts = min (f + 1) n ∧
    (requestLoop errData d trace 0 n).delays = expectedDelays d 0 (min (f + 1) n - 1) := by
  rcases Nat.lt_or_ge f n with hlt | hge
  · have hrun := requestLoop_failThenOk errData d trace descs resp hok f n 0 hlt
      (fun j hj => by simpa using hfail j hj)
      (by simpa using hsucc)
    rw [hrun]
    have hmin : min (f + 1) n = f + 1 := by omega
    rw [hmin]
    simp
  · cases n with
    | zero => simp [requestLoop, expectedDelays]
    | succ c =>
      have hrun := requestLoop_allFail errData d trace descs c 0
        (fun j hj => by
          have hjf : j < f := by omega
          simpa using hfail j hjf)
      rw [hrun]
      have hmin : min (f + 1) (c + 1) = c + 1 := by omega
      rw [hmin]
      simp

/-! ## Claims -/

/-- Claim C1: on a completed exchange with a non-success status on the first
attempt, both engines make exactly one transport attempt regardless of the
configured retry_attempts, sleep no backoff delay, and raise the normalized
APIError immediately: only transport-level failures ever lead to a retry. -/
theorem C1_http_error_single_attempt (cfg : ClientConfig) (trace : Nat → TransportOutcome)
    (resp : HttpResponse) (hbudget : 1 ≤ cfg.retry_attempts)
    (htrace : trace 0 = .completed resp) (hok : resp.ok = false) :
    FarmKonnectClient.request cfg trace =
      ⟨.error (APIError.ofParts (((errorDataSync resp).lookup "message").getD "Request failed")
        resp.status (some (errorDataSync resp))), 1, []⟩ ∧
    AsyncFarmKonnectClient.request cfg trace =
      ⟨.error (APIError.ofParts (((errorDataAsync resp).lookup "message").getD "Request failed")
        resp.status (some (errorDataAsync resp))), 1, []⟩ := by
  obtain ⟨m, hm⟩ : ∃ m, cfg.retry_attempts.toNat = m + 1 :=
    ⟨cfg.retry_attempts.toNat - 1, by omega⟩
  unfold FarmKonnectClient.request AsyncFarmKonnectClient.request
  rw [hm]
  exact ⟨requestLoop_completed_err errorDataSync cfg.retry_delay trace htrace hok m,
    requestLoop_completed_err errorDataAsync cfg.retry_delay trace htrace hok m⟩

/-- Witness for C1: a 500 response with an empty body under the default
three-attempt budget. -/
theorem C1_http_error_single_attempt_witness :
    1 ≤ ({} : ClientConfig).retry_attempts ∧
    HttpResponse.ok ⟨500, "", "text/plain", none⟩ = false ∧
    FarmKonnectClient.request {} (fun _ => .completed ⟨500, "", "text/plain", none⟩) =
      ⟨.error (APIError.ofParts "Request failed" 500 (some [])), 1, []⟩ :=
  ⟨by decide, by decide,
    (C1_http_error_single_attempt {} _ ⟨500, "", "text/plain", none⟩ (by decide) rfl (by decide)).1⟩

/-- Claim C2: the APIError raised on a completed non-success exchange carries
the transport's numeric status; its details are the extracted error body and
its message the body's message field, where the extraction yields the parsed
structured body exactly when the engine's parse gate holds (non-empty body
text for the blocking engine, JSON content type for the non-blocking one)
and the empty dict — hence the default message — when the body is absent or
unparseable. -/
theorem C2_normalized_error_construction (cfg : ClientConfig) (trace : Nat → TransportOutcome)
    (resp : HttpResponse) (hbudget : 1 ≤ cfg.retry_attempts)
    (htrace : trace 0 = .completed resp) (hok : resp.ok = false) :
    (FarmKonnectClient.request cfg trace).result =
      .error ⟨((errorDataSync resp).lookup "message").getD "Request failed",
        resp.status, errorDataSync resp⟩ ∧
    (AsyncFarmKonnectClient.request cfg trace).result =
      .error ⟨((errorDataAsync resp).lookup "message").getD "Request failed",
        resp.status, errorDataAsync resp⟩ ∧
    (∀ b, resp.text ≠ "" → resp.parsed = some b → errorDataSync resp = b) ∧
    (resp.text = "" → errorDataSync resp = []) ∧
    (∀ b, resp.content_type = "application/json" → resp.parsed = some b →
      errorDataAsync resp = b) ∧
    (resp.parsed = none → errorDataSync resp = [] ∧ errorDataAsync resp = []) ∧
    (([] : StrDict).lookup "message").getD "Request failed" = "Request failed" := by
  obtain ⟨m, hm⟩ : ∃ m, cfg.retry_attempts.toNat = m + 1 :=
    ⟨cfg.retry_attempts.toNat - 1, by omega⟩
  refine ⟨?_, ?_, ?_, ?_, ?_, ?_, rfl⟩
  · unfold FarmKonnectClient.request
    rw [hm, requestLoop_completed_err errorDataSync cfg.retry_delay trace htrace hok m]
    simp [APIError.ofParts]
  · unfold AsyncFarmKonnectClient.request
    rw [hm, requestLoop_completed_err errorDataAsync cfg.retry_delay trace htrace hok m]
    simp [APIError.ofParts]
  · intro b hb hp; simp [errorDataSync, hb, hp]
  · intro hb; simp [errorDataSync, hb]
  · intro b hc hp; simp [errorDataAsync, hc, hp]
  · intro hp
    constructor <;> simp [errorDataSync, errorDataAsync, hp]

/-- Witness for C2: a 404 whose JSON body carries a message field. -/
theorem C2_normalized_error_construction_witness :
    1 ≤ ({} : ClientConfig).retry_attempts ∧
    (FarmKonnectClient.request {}
        (fun _ => .completed ⟨404, "b", "application/json",
          some [("message", "Farm not found")]⟩)).result =
      .error ⟨"Farm not found", 404, [("message", "Farm not found")]⟩ :=
  ⟨by decide,
    (C2_normalized_error_construction {} _
      ⟨404, "b", "application/json", some [("message", "Farm not found")]⟩
      (by decide) rfl (by decide)).1⟩

/-- Claim C3: when every attempt of the budget fails at transport level, both
engines raise an APIError with status code 0, the last transport failure
description as message, and empty details, after the full budget of
attempts. -/
theorem C3_transport_exhaustion (cfg : ClientConfig) (trace : Nat → TransportOutcome)
    (descs : Nat → String) (hbudget : 1 ≤ cfg.retry_attempts)
    (hfail : ∀ j, j < cfg.retry_attempts.toNat → trace j = .failure (descs j)) :
    (FarmKonnectClient.request cfg trace).result =
      .error ⟨descs (cfg.retry_attempts.toNat - 1), 0, []⟩ ∧
    (FarmKonnectClient.request cfg trace).attempts = cfg.retry_attempts.toNat ∧
    (AsyncFarmKonnectClient.request cfg trace).result =
      .error ⟨descs (cfg.retry_attempts.toNat - 1), 0, []⟩ ∧
    (AsyncFarmKonnectClient.request cfg trace).attempts = cfg.retry_attempts.toNat := by
  obtain ⟨m, hm⟩ : ∃ m, cfg.retry_attempts.toNat = m + 1 :=
    ⟨cfg.retry_attempts.toNat - 1, by omega⟩
  have hall : ∀ j, j ≤ m → trace (0 + j) = .failure (descs (0 + j)) := by
    intro j hj
    simpa using hfail j (by omega)
  have h1 := requestLoop_allFail errorDataSync cfg.retry_delay trace descs m 0 hall
  have h2 := requestLoop_allFail errorDataAsync cfg.retry_delay trace descs m 0 hall
  unfold FarmKonnectClient.request AsyncFarmKonnectClient.request
  rw [hm, h1, h2]
  simp [APIError.ofParts]

/-- Witness for C3: a transport that always times out under the default
three-attempt budget. -/
theorem C3_transport_exhaustion_witness :
    1 ≤ ({} : ClientConfig).retry_attempts ∧
    (FarmKonnectClient.request {} (fun _ => .failure "timed out")).result =
      .error ⟨"timed out", 0, []⟩ :=
  ⟨by decide,
    (C3_transport_exhaustion {} _ (fun _ => "timed out") (by decide) (fun _ _ => rfl)).1⟩

/-- Claim C4: with f transport-level failures before the first success, both
engines make min (f + 1) retry_attempts attempts (the budget counts total
attempts, 1-indexed, not extra retries), and the backoff slept before
attempt k (k ≥ 2) is retry_delay * 2 ^ (k - 2). -/
theorem C4_retry_accounting (cfg : ClientConfig) (trace : Nat → TransportOutcome)
    (descs : Nat → String) (resp : HttpResponse) (f : Nat)
    (hfail : ∀ j, j < f → trace j = .failure (descs j))
    (hsucc : trace f = .completed resp) (hok : resp.ok = true) :
    (FarmKonnectClient.request cfg trace).attempts = min (f + 1) cfg.retry_attempts.toNat ∧
    (AsyncFarmKonnectClient.request cfg trace).attempts =
      min (f + 1) cfg.retry_attempts.toNat ∧
    (∀ k, 2 ≤ k → k ≤ (FarmKonnectClient.request cfg trace).attempts →
      (FarmKonnectClient.request cfg trace).delays.get? (k - 2) =
        some (cfg.retry_delay * 2 ^ (k - 2))) ∧
    (∀ k, 2 ≤ k → k ≤ (AsyncFarmKonnectClient.request cfg trace).attempts →
      (AsyncFarmKonnectClient.request cfg trace).delays.get? (k - 2) =
        some (cfg.retry_delay * 2 ^ (k - 2))) := by
  have hs := requestLoop_profile errorDataSync cfg.retry_delay trace descs resp f
    cfg.retry_attempts.toNat hok hfail hsucc
  have ha := requestLoop_profile errorDataAsync cfg.retry_delay trace descs resp f
    cfg.retry_attempts.toNat hok hfail hsucc
  unfold FarmKonnectClient.request AsyncFarmKonnectClient.request
  refine ⟨hs.1, ha.1, ?_, ?_⟩
  · intro k hk2 hkle
    rw [hs.1] at hkle
    rw [hs.2]
    have hlt : k - 2 < min (f + 1) cfg.retry_attempts.toNat - 1 := by omega
    simpa using expectedDelays_get cfg.retry_delay
      (min (f + 1) cfg.retry_attempts.toNat - 1) 0 (k - 2) hlt
  · intro k hk2 hkle
    rw [ha.1] at hkle
    rw [ha.2]
    have hlt : k - 2 < min (f + 1) cfg.retry_attempts.toNat - 1 := by omega
    simpa using expectedDelays_get cfg.retry_delay
      (min (f + 1) cfg.retry_attempts.toNat - 1) 0 (k - 2) hlt

/-- Witness for C4: two failures then a success under the default budget of
three: three attempts, and the delay before attempt 2 is the base delay. -/
theorem C4_retry_accounting_witness :
    (∀ j, j < 2 → (fun i => if i < 2 then TransportOutcome.failure "t"
        else .completed ⟨200, "", "application/json", some []⟩) j = .failure "t") ∧
    (FarmKonnectClient.request {} (fun i => if i < 2 then .failure "t"
        else .completed ⟨200, "", "application/json", some []⟩)).attempts =
      min (2 + 1) ({} : ClientConfig).retry_attempts.toNat ∧
    (FarmKonnectClient.request {} (fun i => if i < 2 then .failure "t"
        else .completed ⟨200, "", "application/json", some []⟩)).delays.get? (2 - 2) =
      some (({} : ClientConfig).retry_delay * 2 ^ (2 - 2)) :=
  ⟨by decide,
    (C4_retry_accounting {} _ (fun _ => "t") ⟨200, "", "application/json", some []⟩ 2
      (by decide) (by decide) (by decide)).1,
    (C4_retry_accounting {} _ (fun _ => "t") ⟨200, "", "application/json", some []⟩ 2
      (by decide) (by decide) (by decide)).2.2.1 2 (by decide) (by decide)⟩

/-- Claim C7: a first attempt that completes with a success status returns
the transport's parsed body at once, with exactly one attempt and no
backoff delay, in both engines. -/
theorem C7_first_attempt_success (cfg : ClientConfig) (trace : Nat → TransportOutcome)
    (resp : HttpResponse) (hbudget : 1 ≤ cfg.retry_attempts)
    (htrace : trace 0 = .completed resp) (hok : resp.ok = true) :
    FarmKonnectClient.request cfg trace = ⟨.success (resp.parsed.getD []), 1, []⟩ ∧
    AsyncFarmKonnectClient.request cfg trace = ⟨.success (resp.parsed.getD []), 1, []⟩ := by
  obtain ⟨m, hm⟩ : ∃ m, cfg.retry_attempts.toNat = m + 1 :=
    ⟨cfg.retry_attempts.toNat - 1, by omega⟩
  unfold FarmKonnectClient.request AsyncFarmKonnectClient.request
  rw [hm]
  exact ⟨requestLoop_completed_ok errorDataSync cfg.retry_delay trace htrace hok m,
    requestLoop_completed_ok errorDataAsync cfg.retry_delay trace htrace hok m⟩

/-- Witness for C7: a 200 response with a parsed body. -/
theorem C7_first_attempt_success_witness :
    1 ≤ ({} : ClientConfig).retry_attempts ∧
    FarmKonnectClient.request {}
        (fun _ => .completed ⟨200, "ok", "application/json", some [("id", "1")]⟩) =
      ⟨.success [("id", "1")], 1, []⟩ :=
  ⟨by decide,
    (C7_first_attempt_success {} _ ⟨200, "ok", "application/json", some [("id", "1")]⟩
      (by decide) rfl (by decide)).1⟩

/-- Claim C5: the resolved headers are the Content-Type default overridden
by the caller-supplied headers, with the Authorization key assigned last to
the bearer token whenever a (truthy) token is set — so the configured token
wins over any caller-supplied Authorization value. -/
theorem C5_header_precedence (t : String) (extra : StrDict) (ht : t ≠ "") :
    _get_headers (some t) (some extra) =
      dictSet (dictMerge [("Content-Type", "application/json")] extra) "Authorization"
        ("Bearer " ++ t) ∧
    (_get_headers (some t) (some extra)).lookup "Authorization" = some ("Bearer " ++ t) := by
  have h1 : _get_headers (some t) (some extra) =
      dictSet (dictMerge [("Content-Type", "application/json")] extra) "Authorization"
        ("Bearer " ++ t) := by
    simp [_get_headers, ht]
  exact ⟨h1, h1 ▸ lookup_dictSet _ _ _⟩

/-- Witness for C5: the configured token overrides a caller-supplied
Authorization header. -/
theorem C5_header_precedence_witness :
    ("secret" : String) ≠ "" ∧
    (_get_headers (some "secret") (some [("Authorization", "Bearer other")])).lookup
      "Authorization" = some ("Bearer " ++ "secret") :=
  ⟨by decide,
    (C5_header_precedence "secret" [("Authorization", "Bearer other")] (by decide)).2⟩

/-- Claim C6 counterexample: a marketplace min_price of 0 is a provided
optional filter, yet the facade's truthiness test drops it — the serialized
parameters are empty, with no minPrice key at all. -/
theorem C6_counterexample :
    MarketplaceAPI.list_products none none (some 0) none = [] ∧
    (MarketplaceAPI.list_products none none (some 0) none).lookup "minPrice" = none :=
  ⟨rfl, rfl⟩

/-- Claim C6 as amended: an optional filter is serialized exactly when the
provided value is truthy in Python's sense — None, empty strings and zero
are all omitted.  crops.list with no status yields only farmId, a non-empty
status is serialized, an empty status is dropped, a non-zero min_price is
serialized, and a zero min_price is dropped. -/
theorem C6_amended_optional_filters (farm_id : Int) (s : String) (q : ℚ)
    (hs : s ≠ "") (hq : q ≠ 0) :
    CropsAPI.list farm_id none = [("farmId", .int farm_id)] ∧
    (CropsAPI.list farm_id (some s)).lookup "status" = some (.str s) ∧
    CropsAPI.list farm_id (some "") = [("farmId", .int farm_id)] ∧
    (MarketplaceAPI.list_products none none (some q) none).lookup "minPrice" =
      some (.float q) ∧
    MarketplaceAPI.list_products none none (some 0) none = [] := by
  refine ⟨rfl, ?_, rfl, ?_, rfl⟩
  · simp only [CropsAPI.list]
    rw [if_neg hs]
    exact lookup_dictSet _ _ _
  · simp only [MarketplaceAPI.list_products]
    rw [if_neg hq]
    exact lookup_dictSet _ _ _

/-- Witness for the amended C6 at farm 5, status active, min price 2. -/
theorem C6_amended_optional_filters_witness :
    ("active" : String) ≠ "" ∧ (2 : ℚ) ≠ 0 ∧
    CropsAPI.list 5 none = [("farmId", .int 5)] ∧
    (MarketplaceAPI.list_products none none (some 2) none).lookup "minPrice" =
      some (.float 2) :=
  ⟨by decide, by decide,
    (C6_amended_optional_filters 5 "active" 2 (by decide) (by decide)).1,
    (C6_amended_optional_filters 5 "active" 2 (by decide) (by decide)).2.2.2.1⟩

/-- Claim C8 counterexample: one and the same wire response — a 404 with a
non-empty, JSON-parseable body served under a non-JSON content type — makes
the two engines raise different normalized errors: the blocking engine
extracts the body's message and details (its gate is non-empty body text),
the non-blocking one falls back to the defaults (its gate is the declared
content type). -/
theorem C8_counterexample :
    (FarmKonnectClient.request {}
        (fun _ => .completed ⟨404, "m", "text/plain",
          some [("message", "Farm not found")]⟩)).result =
      .error ⟨"Farm not found", 404, [("message", "Farm not found")]⟩ ∧
    (AsyncFarmKonnectClient.request {}
        (fun _ => .completed ⟨404, "m", "text/plain",
          some [("message", "Farm not found")]⟩)).result =
      .error ⟨"Request failed", 404, []⟩ :=
  ⟨rfl, rfl⟩

/-- Claim C8 as amended: the two engines share header resolution and the
whole retry/backoff/error policy, and their runs coincide — same outcome,
same attempt count, same delays — whenever their error-body extractions
agree on every completed response of the run; they can differ only in the
message and details of the normalized error for completed error responses
on which the two extraction gates (body text vs. content type) disagree. -/
theorem C8_amended_equivalence (cfg : ClientConfig) (trace : Nat → TransportOutcome)
    (h : ∀ a resp, trace a = .completed resp → errorDataSync resp = errorDataAsync resp) :
    FarmKonnectClient.request cfg trace = AsyncFarmKonnectClient.request cfg trace := by
  unfold FarmKonnectClient.request AsyncFarmKonnectClient.request
  exact requestLoop_congr errorDataSync errorDataAsync cfg.retry_delay trace h _ _

/-- Witness for the amended C8: a run of pure transport failures is
identical in the two engines. -/
theorem C8_amended_equivalence_witness :
    (∀ a resp, (fun _ : Nat => TransportOutcome.failure "connection refused") a =
      .completed resp → errorDataSync resp = errorDataAsync resp) ∧
    FarmKonnectClient.request {} (fun _ => .failure "connection refused") =
      AsyncFarmKonnectClient.request {} (fun _ => .failure "connection refused") :=
  ⟨fun _ _ hc => TransportOutcome.noConfusion hc,
    C8_amended_equivalence {} _ (fun _ _ hc => TransportOutcome.noConfusion hc)⟩

/-- Claim C9: with a non-positive retry_attempts the loop body never runs:
request() makes no transport attempt and returns None — neither a parsed
body nor a raised APIError — violating its declared return contract. -/
theorem C9_nonpositive_budget_returns_none (cfg : ClientConfig)
    (trace : Nat → TransportOutcome) (h : cfg.retry_attempts ≤ 0) :
    FarmKonnectClient.request cfg trace = ⟨.noneReturned, 0, []⟩ ∧
    AsyncFarmKonnectClient.request cfg trace = ⟨.noneReturned, 0, []⟩ := by
  have h0 : cfg.retry_attempts.toNat = 0 := by omega
  unfold FarmKonnectClient.request AsyncFarmKonnectClient.request
  rw [h0]
  exact ⟨rfl, rfl⟩

/-- Witness for C9: retry_attempts = 0 returns None without any attempt. -/
theorem C9_nonpositive_budget_returns_none_witness :
    ({ retry_attempts := 0 } : ClientConfig).retry_attempts ≤ 0 ∧
    FarmKonnectClient.request { retry_attempts := 0 } (fun _ => .failure "x") =
      ⟨.noneReturned, 0, []⟩ :=
  ⟨by decide,
    (C9_nonpositive_budget_returns_none { retry_attempts := 0 } _ (by decide)).1⟩

/-- Claim C10: after set_token with the empty string the headers are exactly
those after clear_token — the truthiness test on the token skips the
Authorization assignment — so, absent a caller-supplied Authorization entry,
requests carry no Authorization header at all. -/
theorem C10_empty_token_equals_cleared (cfg : ClientConfig) (extra : StrDict)
    (hextra : ∀ p ∈ extra, p.1 ≠ "Authorization") :
    _get_headers (set_token cfg "").token (some extra) =
      _get_headers (clear_token cfg).token (some extra) ∧
    (_get_headers (set_token cfg "").token (some extra)).lookup "Authorization" = none := by
  have h1 : _get_headers (set_token cfg "").token (some extra) =
      dictMerge [("Content-Type", "application/json")] extra := by
    simp [_get_headers, set_token]
  have h2 : _get_headers (clear_token cfg).token (some extra) =
      dictMerge [("Content-Type", "application/json")] extra := by
    simp [_get_headers, clear_token]
  refine ⟨h1.trans h2.symm, ?_⟩
  rw [h1]
  refine lookup_eq_none_of_keys_ne _ _
    (dictMerge_keys_ne extra [("Content-Type", "application/json")] ?_ hextra)
  intro p hp
  have hpv : p = ("Content-Type", "application/json") := by simpa using hp
  subst hpv
  decide

/-- Witness for C10: an empty token with an unrelated caller header. -/
theorem C10_empty_token_equals_cleared_witness :
    (∀ p ∈ ([("X-Request-Id", "7")] : StrDict), p.1 ≠ "Authorization") ∧
    (_get_headers (set_token {} "").token (some [("X-Request-Id", "7")])).lookup
      "Authorization" = none :=
  ⟨by decide,
    (C10_empty_token_equals_cleared {} [("X-Request-Id", "7")] (by decide)).2⟩
